import Mathlib

/-!
Verification of the notification-dispatch endpoint in `src/api/send.js`.

The source file holds two variants of the same Vercel serverless handler:
a CommonJS `module.exports` function and an ESM `export default` function.
Both validate the request (method, API key, provider configuration,
title/message), resolve the audience (the `"All"` segment when `toAll`,
otherwise player ids collected from a Firestore `users` query), build a
OneSignal payload, post it, and map the provider response to an HTTP
status.

The embedding below models each handler as a pure function from the
environment, the request, the user-record collection and the provider's
response to an outcome recording the HTTP status, the JSON body, the
payload sent to the provider (if any) and whether the user source was
queried.  JavaScript truthiness on the string-valued fields involved is
modelled explicitly (`undefined`/`null`/`""` are falsy).
-/

namespace Send

/-- The environment variables the handler reads.  Each is a string or
absent, as in `process.env`. -/
structure Env where
  API_KEY : Option String
  ONESIGNAL_APP_ID : Option String
  ONESIGNAL_REST_API_KEY : Option String
deriving DecidableEq

/-- The request body fields destructured by the handler
(`const { title, message, toAll } = req.body`). -/
structure ReqBody where
  title : Option String
  message : Option String
  toAll : Bool
deriving DecidableEq

/-- The parts of the incoming request the handler inspects: the HTTP
method and the `x-api-key` header. -/
structure Request where
  method : String
  xApiKey : Option String
  body : ReqBody
deriving DecidableEq

/-- One document of the Firestore `users` collection, reduced to the one
field the handler reads: `playerId`.  `none` covers both a `null`
`playerId` and a missing one — the handler's `!= null` query excludes
null-valued and missing fields alike, and the in-memory guard re-checks
truthiness, so the two cases are indistinguishable to this code. -/
structure UserRecord where
  playerId : Option String
deriving DecidableEq

/-- The provider's JSON response, reduced to the field the handler
branches on: `errors`, absent or a list of error strings. -/
structure ProviderResponse where
  errors : Option (List String)
deriving DecidableEq

/-- JavaScript truthiness of a string-or-absent value: `undefined`,
`null` and `""` are falsy, every other string is truthy. -/
def optTruthy : Option String → Bool
  | none => false
  | some s => !s.isEmpty

/-- The OneSignal notification payload the handler constructs:
`app_id`, `headings.en`, `contents.en`, and at most one of
`included_segments` / `include_player_ids`. -/
structure NotificationPayload where
  app_id : String
  headings_en : String
  contents_en : String
  included_segments : Option (List String) := none
  include_player_ids : Option (List String) := none
deriving DecidableEq

/-- The audience descriptor of the spec's data model: either a named
segment or an explicit device-id list. -/
inductive AudienceDescriptor where
  | segment (name : String)
  | deviceList (ids : List String)
deriving DecidableEq

/-- The payload construction of `send.js` lines 44–48 plus the audience
field added at line 51 (`included_segments = [name]`) or line 65
(`include_player_ids = ids`), factored over an audience descriptor. -/
def buildPayload (appId title message : String) :
    AudienceDescriptor → NotificationPayload
  | .segment name =>
    { app_id := appId, headings_en := title, contents_en := message,
      included_segments := some [name] }
  | .deviceList ids =>
    { app_id := appId, headings_en := title, contents_en := message,
      include_player_ids := some ids }

/-- The Firestore query `db.collection("users").where("playerId", "!=", null)`:
it returns the documents whose `playerId` field is present and non-null. -/
def usersWherePlayerIdNeNull (users : List UserRecord) : List UserRecord :=
  users.filter (fun r => r.playerId.isSome)

/-- The snapshot loop of `send.js` lines 54–60: start from an empty
array and push `data.playerId` for each document whose `playerId` is
truthy. -/
def collectPlayerIds (snapshot : List UserRecord) : List String :=
  snapshot.foldl
    (fun acc r =>
      match r.playerId with
      | some s => if s.isEmpty then acc else acc ++ [s]
      | none => acc)
    []

/-- The device-id list the handler resolves when `toAll` is false:
the collection loop applied to the Firestore query's snapshot
(`send.js` lines 53–60). -/
def resolveDeviceIds (users : List UserRecord) : List String :=
  collectPlayerIds (usersWherePlayerIdNeNull users)

/-- The value under the `error` key of a response body: either a plain
message string or the provider's `errors` list echoed back. -/
inductive ErrorValue where
  | msg (s : String)
  | errs (es : List String)
deriving DecidableEq

/-- The JSON response body, as the union of the shapes the handler
emits: optional `success`, `error`, `message` and `data` keys. -/
structure RespBody where
  success : Option Bool := none
  error : Option ErrorValue := none
  message : Option String := none
  data : Option ProviderResponse := none
deriving DecidableEq

/-- The observable outcome of one handler invocation: the HTTP status,
the JSON body, the payload posted to OneSignal (`none` when the fetch
was never reached) and whether the Firestore user query ran. -/
structure HandlerOutcome where
  status : Nat
  body : RespBody
  sent : Option NotificationPayload
  queriedUserSource : Bool
deriving DecidableEq

/-- The send-and-map tail shared by both handlers (`send.js` lines
68–84): post the payload, then map a response carrying `errors` to a
500 with `success:false` and the error payload, and any other response
to a 200 with `success:true` and the echoed data. -/
def sendOutcome (payload : NotificationPayload) (queried : Bool)
    (provider : ProviderResponse) : HandlerOutcome :=
  match provider.errors with
  | some es =>
    { status := 500, body := { success := some false, error := some (.errs es) },
      sent := some payload, queriedUserSource := queried }
  | none =>
    { status := 200, body := { success := some true, data := some provider },
      sent := some payload, queriedUserSource := queried }

/-- The CommonJS handler (`module.exports`, `send.js` lines 22–89),
transcribed guard by guard; the provider's response is passed in as the
result the `fetch` would produce. -/
def handlerCJS (env : Env) (req : Request) (users : List UserRecord)
    (provider : ProviderResponse) : HandlerOutcome :=
  if req.method != "POST" then
    { status := 405, body := { error := some (.msg "Method not allowed") },
      sent := none, queriedUserSource := false }
  else if !optTruthy req.xApiKey || req.xApiKey != env.API_KEY then
    { status := 401,
      body := { error := some (.msg "Unauthorized - Invalid API Key") },
      sent := none, queriedUserSource := false }
  else if !optTruthy env.ONESIGNAL_APP_ID
      || !optTruthy env.ONESIGNAL_REST_API_KEY then
    { status := 500,
      body := { error := some (.msg "OneSignal configuration missing on server.") },
      sent := none, queriedUserSource := false }
  else if !optTruthy req.body.title || !optTruthy req.body.message then
    { status := 400, body := { error := some (.msg "Missing title or message") },
      sent := none, queriedUserSource := false }
  else if req.body.toAll then
    match provider.errors with
    | some es =>
      { status := 500, body := { success := some false, error := some (.errs es) },
        sent := some (buildPayload (env.ONESIGNAL_APP_ID.getD "")
          (req.body.title.getD "") (req.body.message.getD "") (.segment "All")),
        queriedUserSource := false }
    | none =>
      { status := 200, body := { success := some true, data := some provider },
        sent := some (buildPayload (env.ONESIGNAL_APP_ID.getD "")
          (req.body.title.getD "") (req.body.message.getD "") (.segment "All")),
        queriedUserSource := false }
  else if (resolveDeviceIds users).length == 0 then
    { status := 200,
      body := { success := some true, message := some "No subscribed users found." },
      sent := none, queriedUserSource := true }
  else
    match provider.errors with
    | some es =>
      { status := 500, body := { success := some false, error := some (.errs es) },
        sent := some (buildPayload (env.ONESIGNAL_APP_ID.getD "")
          (req.body.title.getD "") (req.body.message.getD "")
          (.deviceList (resolveDeviceIds users))),
        queriedUserSource := true }
    | none =>
      { status := 200, body := { success := some true, data := some provider },
        sent := some (buildPayload (env.ONESIGNAL_APP_ID.getD "")
          (req.body.title.getD "") (req.body.message.getD "")
          (.deviceList (resolveDeviceIds users))),
        queriedUserSource := true }

/-- The ESM handler (`export default async function handler`, `send.js`
lines 114–189), transcribed independently of the CommonJS variant; the
only textual difference in the source is the "no subscribed users"
message wording. -/
def handlerESM (env : Env) (req : Request) (users : List UserRecord)
    (provider : ProviderResponse) : HandlerOutcome :=
  if req.method != "POST" then
    { status := 405, body := { error := some (.msg "Method not allowed") },
      sent := none, queriedUserSource := false }
  else if !optTruthy req.xApiKey || req.xApiKey != env.API_KEY then
    { status := 401,
      body := { error := some (.msg "Unauthorized - Invalid API Key") },
      sent := none, queriedUserSource := false }
  else if !optTruthy env.ONESIGNAL_APP_ID
      || !optTruthy env.ONESIGNAL_REST_API_KEY then
    { status := 500,
      body := { error := some (.msg "OneSignal configuration missing on server.") },
      sent := none, queriedUserSource := false }
  else if !optTruthy req.body.title || !optTruthy req.body.message then
    { status := 400, body := { error := some (.msg "Missing title or message") },
      sent := none, queriedUserSource := false }
  else if req.body.toAll then
    match provider.errors with
    | some es =>
      { status := 500, body := { success := some false, error := some (.errs es) },
        sent := some (buildPayload (env.ONESIGNAL_APP_ID.getD "")
          (req.body.title.getD "") (req.body.message.getD "") (.segment "All")),
        queriedUserSource := false }
    | none =>
      { status := 200, body := { success := some true, data := some provider },
        sent := some (buildPayload (env.ONESIGNAL_APP_ID.getD "")
          (req.body.title.getD "") (req.body.message.getD "") (.segment "All")),
        queriedUserSource := false }
  else if (resolveDeviceIds users).length == 0 then
    { status := 200,
      body := { success := some true,
                message := some "No subscribed users found to send notification to." },
      sent := none, queriedUserSource := true }
  else
    match provider.errors with
    | some es =>
      { status := 500, body := { success := some false, error := some (.errs es) },
        sent := some (buildPayload (env.ONESIGNAL_APP_ID.getD "")
          (req.body.title.getD "") (req.body.message.getD "")
          (.deviceList (resolveDeviceIds users))),
        queriedUserSource := true }
    | none =>
      { status := 200, body := { success := some true, data := some provider },
        sent := some (buildPayload (env.ONESIGNAL_APP_ID.getD "")
          (req.body.title.getD "") (req.body.message.getD "")
          (.deviceList (resolveDeviceIds users))),
        queriedUserSource := true }

/-- The spec's notion of a usable device id for one record: the
`playerId` value when it is present and non-empty/non-null, nothing
otherwise. -/
def usableId (r : UserRecord) : Option String :=
  match r.playerId with
  | some s => if s.isEmpty then none else some s
  | none => none

/-- A fully configured environment, for concrete evaluations. -/
def envOK : Env :=
  { API_KEY := some "k", ONESIGNAL_APP_ID := some "app",
    ONESIGNAL_REST_API_KEY := some "rest" }

/-- A valid broadcast request (`toAll = true`). -/
def reqAll : Request :=
  { method := "POST", xApiKey := some "k",
    body := { title := some "Hi", message := some "Hello", toAll := true } }

/-- A valid targeted request (`toAll = false`). -/
def reqTargeted : Request :=
  { method := "POST", xApiKey := some "k",
    body := { title := some "Hi", message := some "Hello", toAll := false } }

/-- A request with the wrong HTTP method. -/
def reqGET : Request :=
  { method := "GET", xApiKey := some "k",
    body := { title := some "Hi", message := some "Hello", toAll := true } }

/-- A valid-key POST request whose body is missing `title`. -/
def reqNoTitle : Request :=
  { method := "POST", xApiKey := some "k",
    body := { title := none, message := some "Hello", toAll := false } }

/-- A provider response with no `errors` field. -/
def providerOK : ProviderResponse := { errors := none }

/-- A provider response rejecting the request. -/
def providerErr : ProviderResponse := { errors := some ["invalid_player_ids"] }

theorem collectPlayerIds_go (snapshot : List UserRecord) (acc : List String) :
    snapshot.foldl
      (fun acc r =>
        match r.playerId with
        | some s => if s.isEmpty then acc else acc ++ [s]
        | none => acc)
      acc = acc ++ snapshot.filterMap usableId := by
  induction snapshot generalizing acc with
  | nil => simp
  | cons r rest ih =>
    cases h : r.playerId with
    | none => simp [List.foldl_cons, h, ih, usableId]
    | some s =>
      by_cases hs : s.isEmpty <;>
        simp [List.foldl_cons, h, hs, ih, usableId]

theorem collectPlayerIds_eq (snapshot : List UserRecord) :
    collectPlayerIds snapshot = snapshot.filterMap usableId := by
  simpa using collectPlayerIds_go snapshot []

theorem resolveDeviceIds_eq (users : List UserRecord) :
    resolveDeviceIds users = users.filterMap usableId := by
  rw [resolveDeviceIds, collectPlayerIds_eq, usersWherePlayerIdNeNull]
  induction users with
  | nil => rfl
  | cons r rest ih =>
    cases h : r.playerId <;>
      simp [List.filter_cons, List.filterMap_cons, h, ih, usableId]

theorem sendOutcome_sent (payload : NotificationPayload) (queried : Bool)
    (provider : ProviderResponse) :
    (sendOutcome payload queried provider).sent = some payload := by
  rcases provider with ⟨_ | es⟩ <;> rfl

theorem sendOutcome_queried (payload : NotificationPayload) (queried : Bool)
    (provider : ProviderResponse) :
    (sendOutcome payload queried provider).queriedUserSource = queried := by
  rcases provider with ⟨_ | es⟩ <;> rfl

/-- Exhaustive case analysis of the CommonJS handler: every invocation
lands in one of the four validation rejections, the broadcast send, the
zero-recipients short-circuit, or the targeted send. -/
theorem handlerCJS_outcomes (env : Env) (req : Request) (users : List UserRecord)
    (provider : ProviderResponse) :
    handlerCJS env req users provider
        = { status := 405, body := { error := some (.msg "Method not allowed") },
            sent := none, queriedUserSource := false }
    ∨ handlerCJS env req users provider
        = { status := 401,
            body := { error := some (.msg "Unauthorized - Invalid API Key") },
            sent := none, queriedUserSource := false }
    ∨ handlerCJS env req users provider
        = { status := 500,
            body := { error := some (.msg "OneSignal configuration missing on server.") },
            sent := none, queriedUserSource := false }
    ∨ handlerCJS env req users provider
        = { status := 400, body := { error := some (.msg "Missing title or message") },
            sent := none, queriedUserSource := false }
    ∨ (req.body.toAll = true
        ∧ handlerCJS env req users provider
          = sendOutcome (buildPayload (env.ONESIGNAL_APP_ID.getD "")
              (req.body.title.getD "") (req.body.message.getD "") (.segment "All"))
              false provider)
    ∨ (resolveDeviceIds users = []
        ∧ handlerCJS env req users provider
          = { status := 200,
              body := { success := some true,
                        message := some "No subscribed users found." },
              sent := none, queriedUserSource := true })
    ∨ (resolveDeviceIds users ≠ []
        ∧ handlerCJS env req users provider
          = sendOutcome (buildPayload (env.ONESIGNAL_APP_ID.getD "")
              (req.body.title.getD "") (req.body.message.getD "")
              (.deviceList (resolveDeviceIds users)))
              true provider) := by
  by_cases h1 : (req.method != "POST") = true
  · exact Or.inl (by simp [handlerCJS, h1])
  by_cases h2 : (!optTruthy req.xApiKey || req.xApiKey != env.API_KEY) = true
  · exact Or.inr (Or.inl (by simp [handlerCJS, h1, h2]))
  by_cases h3 : (!optTruthy env.ONESIGNAL_APP_ID
      || !optTruthy env.ONESIGNAL_REST_API_KEY) = true
  · exact Or.inr (Or.inr (Or.inl (by simp [handlerCJS, h1, h2, h3])))
  by_cases h4 : (!optTruthy req.body.title || !optTruthy req.body.message) = true
  · exact Or.inr (Or.inr (Or.inr (Or.inl (by simp [handlerCJS, h1, h2, h3, h4]))))
  by_cases h5 : req.body.toAll = true
  · refine Or.inr (Or.inr (Or.inr (Or.inr (Or.inl ⟨h5, ?_⟩))))
    cases hp : provider.errors <;>
      simp [handlerCJS, sendOutcome, h1, h2, h3, h4, h5, hp]
  by_cases h6 : ((resolveDeviceIds users).length == 0) = true
  · refine Or.inr (Or.inr (Or.inr (Or.inr (Or.inr (Or.inl ⟨?_, ?_⟩)))))
    · exact List.length_eq_zero.mp (by simpa using h6)
    · simp [handlerCJS, h1, h2, h3, h4, h5, h6]
  · refine Or.inr (Or.inr (Or.inr (Or.inr (Or.inr (Or.inr ⟨?_, ?_⟩)))))
    · intro hnil; exact h6 (by simp [hnil])
    · cases hp : provider.errors <;>
        simp [handlerCJS, sendOutcome, h1, h2, h3, h4, h5, h6, hp]

/-- The two handler variants agree exactly, except in the
zero-recipients branch where they emit the same outcome up to the
wording of the "no subscribed users" message. -/
theorem handlers_agree (env : Env) (req : Request) (users : List UserRecord)
    (provider : ProviderResponse) :
    handlerESM env req users provider = handlerCJS env req users provider
    ∨ (handlerCJS env req users provider
        = { status := 200,
            body := { success := some true,
                      message := some "No subscribed users found." },
            sent := none, queriedUserSource := true }
      ∧ handlerESM env req users provider
        = { status := 200,
            body := { success := some true,
                      message := some "No subscribed users found to send notification to." },
            sent := none, queriedUserSource := true }) := by
  by_cases h1 : (req.method != "POST") = true
  · exact Or.inl (by simp [handlerCJS, handlerESM, h1])
  by_cases h2 : (!optTruthy req.xApiKey || req.xApiKey != env.API_KEY) = true
  · exact Or.inl (by simp [handlerCJS, handlerESM, h1, h2])
  by_cases h3 : (!optTruthy env.ONESIGNAL_APP_ID
      || !optTruthy env.ONESIGNAL_REST_API_KEY) = true
  · exact Or.inl (by simp [handlerCJS, handlerESM, h1, h2, h3])
  by_cases h4 : (!optTruthy req.body.title || !optTruthy req.body.message) = true
  · exact Or.inl (by simp [handlerCJS, handlerESM, h1, h2, h3, h4])
  by_cases h5 : req.body.toAll = true
  · refine Or.inl ?_
    cases hp : provider.errors <;>
      simp [handlerCJS, handlerESM, h1, h2, h3, h4, h5, hp]
  by_cases h6 : ((resolveDeviceIds users).length == 0) = true
  · exact Or.inr ⟨by simp [handlerCJS, h1, h2, h3, h4, h5, h6],
                  by simp [handlerESM, h1, h2, h3, h4, h5, h6]⟩
  · refine Or.inl ?_
    cases hp : provider.errors <;>
      simp [handlerCJS, handlerESM, h1, h2, h3, h4, h5, h6, hp]

end Send

namespace Send

/-- C1 (counterexample): the resolved device list is NOT deduplicated —
with two user records carrying the same `playerId` value `"p1"`, the
resolution yields `["p1", "p1"]`, in which `"p1"` occurs twice. -/
theorem C1_no_dedup_counterexample :
    (resolveDeviceIds [⟨some "p1"⟩, ⟨some "p1"⟩]).count "p1" = 2
    ∧ ¬ (resolveDeviceIds [⟨some "p1"⟩, ⟨some "p1"⟩]).Nodup := by
  constructor <;> decide

/-- C1 (amended): when `toAll` is false, audience resolution preserves
every occurrence of a usable device id — each non-empty id value `s`
occurs in the resolved list exactly as many times as there are records
carrying `playerId = s`; duplicates are kept, not removed. -/
theorem C1_occurrences_preserved (users : List UserRecord) (s : String)
    (hs : s ≠ "") :
    (resolveDeviceIds users).count s
      = users.countP (fun r => r.playerId == some s) := by
  rw [resolveDeviceIds_eq]
  induction users with
  | nil => rfl
  | cons r rest ih =>
    cases h : r.playerId with
    | none => simp [List.filterMap_cons, h, usableId, List.countP_cons, ih]
    | some t =>
      by_cases ht : t.isEmpty
      · have ht0 : t = "" := (String.isEmpty_iff t).mp ht
        subst ht0
        simp [List.filterMap_cons, h, usableId, ht, List.countP_cons, ih,
          Ne.symm hs]
      · simp [List.filterMap_cons, h, usableId, ht, List.count_cons,
          List.countP_cons, ih]

/-- C1 (witness for the amended theorem): on two records both carrying
`playerId = "p2"`, the resolved list counts `"p2"` twice, matching the
record count. -/
theorem C1_occurrences_preserved_witness :
    (resolveDeviceIds [⟨some "p2"⟩, ⟨some "p2"⟩]).count "p2"
      = ([⟨some "p2"⟩, ⟨some "p2"⟩] : List UserRecord).countP
          (fun r => r.playerId == some "p2") :=
  C1_occurrences_preserved [⟨some "p2"⟩, ⟨some "p2"⟩] "p2" (by decide)

/-- C2: for every request passing validation with `toAll = true`, the
handler never queries the user source, sends a payload whose audience is
`included_segments = ["All"]` (and no player-id list), and its outcome
is independent of the user source's contents. -/
theorem C2_toAll_broadcasts_without_query (env : Env) (req : Request)
    (users : List UserRecord) (provider : ProviderResponse)
    (hmethod : req.method = "POST")
    (hkey : (!optTruthy req.xApiKey || req.xApiKey != env.API_KEY) = false)
    (hcfg : (!optTruthy env.ONESIGNAL_APP_ID
        || !optTruthy env.ONESIGNAL_REST_API_KEY) = false)
    (hbody : (!optTruthy req.body.title || !optTruthy req.body.message) = false)
    (htoAll : req.body.toAll = true) :
    (handlerCJS env req users provider).queriedUserSource = false
    ∧ (handlerCJS env req users provider).sent
        = some { app_id := env.ONESIGNAL_APP_ID.getD "",
                 headings_en := req.body.title.getD "",
                 contents_en := req.body.message.getD "",
                 included_segments := some ["All"],
                 include_player_ids := none }
    ∧ (∀ users' : List UserRecord,
        handlerCJS env req users provider = handlerCJS env req users' provider) := by
  cases hp : provider.errors <;>
    simp [handlerCJS, buildPayload, hmethod, hkey, hcfg, hbody, htoAll, hp]

/-- C2 (witness): a concrete broadcast request against a one-record user
source is answered without querying the source, with the `"All"` segment
payload sent. -/
theorem C2_toAll_broadcasts_without_query_witness :
    (handlerCJS envOK reqAll [⟨some "z"⟩] providerOK).queriedUserSource = false
    ∧ (handlerCJS envOK reqAll [⟨some "z"⟩] providerOK).sent
        = some { app_id := envOK.ONESIGNAL_APP_ID.getD "",
                 headings_en := reqAll.body.title.getD "",
                 contents_en := reqAll.body.message.getD "",
                 included_segments := some ["All"],
                 include_player_ids := none } := by
  have h := C2_toAll_broadcasts_without_query envOK reqAll [⟨some "z"⟩] providerOK
    rfl (by decide) (by decide) (by decide) rfl
  exact ⟨h.1, h.2.1⟩

/-- C3: for every request passing validation with `toAll = false` whose
user source yields zero usable device ids, the handler answers 200 with
`success: true` and the provider is never invoked. -/
theorem C3_zero_recipients_success (env : Env) (req : Request)
    (users : List UserRecord) (provider : ProviderResponse)
    (hmethod : req.method = "POST")
    (hkey : (!optTruthy req.xApiKey || req.xApiKey != env.API_KEY) = false)
    (hcfg : (!optTruthy env.ONESIGNAL_APP_ID
        || !optTruthy env.ONESIGNAL_REST_API_KEY) = false)
    (hbody : (!optTruthy req.body.title || !optTruthy req.body.message) = false)
    (htoAll : req.body.toAll = false)
    (hempty : resolveDeviceIds users = []) :
    (handlerCJS env req users provider).status = 200
    ∧ (handlerCJS env req users provider).body.success = some true
    ∧ (handlerCJS env req users provider).sent = none := by
  simp [handlerCJS, hmethod, hkey, hcfg, hbody, htoAll, hempty]

/-- C3 (witness): a concrete targeted request against a user source
whose only records lack a usable `playerId` gets a 200 success with no
provider call. -/
theorem C3_zero_recipients_success_witness :
    (handlerCJS envOK reqTargeted [⟨none⟩, ⟨some ""⟩] providerOK).status = 200
    ∧ (handlerCJS envOK reqTargeted [⟨none⟩, ⟨some ""⟩] providerOK).body.success
        = some true
    ∧ (handlerCJS envOK reqTargeted [⟨none⟩, ⟨some ""⟩] providerOK).sent = none :=
  C3_zero_recipients_success envOK reqTargeted [⟨none⟩, ⟨some ""⟩] providerOK
    rfl (by decide) (by decide) (by decide) rfl (by decide)

/-- C4: when `toAll` is false the resolved device list is exactly the
`playerId` values of the records where that field is present and
non-empty/non-null, in encounter order, records without a usable id
being silently skipped; in particular
`[{playerId:"p1"}, {playerId:null}, {playerId:"p2"}]` resolves to
`["p1", "p2"]`. -/
theorem C4_device_list_order_and_skips :
    (∀ users : List UserRecord, resolveDeviceIds users = users.filterMap usableId)
    ∧ resolveDeviceIds [⟨some "p1"⟩, ⟨none⟩, ⟨some "p2"⟩] = ["p1", "p2"] :=
  ⟨resolveDeviceIds_eq, by decide⟩

/-- C5: every payload actually handed to the provider has exactly one of
its two audience fields populated — `included_segments` or
`include_player_ids`, never both, never neither. -/
theorem C5_exactly_one_audience_field (env : Env) (req : Request)
    (users : List UserRecord) (provider : ProviderResponse)
    (p : NotificationPayload)
    (h : (handlerCJS env req users provider).sent = some p) :
    ((p.included_segments.isSome && !p.include_player_ids.isSome)
      || (!p.included_segments.isSome && p.include_player_ids.isSome)) = true := by
  rcases handlerCJS_outcomes env req users provider with
    h1 | h1 | h1 | h1 | ⟨_, h1⟩ | ⟨_, h1⟩ | ⟨_, h1⟩ <;> rw [h1] at h
  · simp at h
  · simp at h
  · simp at h
  · simp at h
  · rw [sendOutcome_sent] at h
    injection h with h
    subst h
    rfl
  · simp at h
  · rw [sendOutcome_sent] at h
    injection h with h
    subst h
    rfl

/-- C5 (witness): the concrete broadcast request sends a payload whose
`included_segments` is populated and `include_player_ids` is not. -/
theorem C5_exactly_one_audience_field_witness :
    (((some ["All"] : Option (List String)).isSome
        && !(none : Option (List String)).isSome)
      || (!(some ["All"] : Option (List String)).isSome
        && (none : Option (List String)).isSome)) = true :=
  C5_exactly_one_audience_field envOK reqAll [] providerOK
    { app_id := "app", headings_en := "Hi", contents_en := "Hello",
      included_segments := some ["All"], include_player_ids := none }
    (by decide)

/-- C6: the payload builder maps the title to `headings.en`, the message
to `contents.en`, the configured app id to `app_id`, a segment audience
to `included_segments = [name]` and a device-list audience to
`include_player_ids = ids` verbatim; concretely, `toAll = true`,
`title = "Hi"`, `message = "Hello"` yields
`{app_id, headings:{en:"Hi"}, contents:{en:"Hello"}, included_segments:["All"]}`. -/
theorem C6_payload_builder_mapping :
    (∀ appId title message name : String,
      buildPayload appId title message (.segment name)
        = { app_id := appId, headings_en := title, contents_en := message,
            included_segments := some [name], include_player_ids := none })
    ∧ (∀ (appId title message : String) (ids : List String),
      buildPayload appId title message (.deviceList ids)
        = { app_id := appId, headings_en := title, contents_en := message,
            included_segments := none, include_player_ids := some ids })
    ∧ (handlerCJS envOK reqAll [] providerOK).sent
        = some { app_id := "app", headings_en := "Hi", contents_en := "Hello",
                 included_segments := some ["All"], include_player_ids := none } :=
  ⟨fun _ _ _ _ => rfl, fun _ _ _ _ => rfl, by decide⟩

/-- C7 (counterexample): the method-not-allowed error outcome is a JSON
body carrying only an error description — it has NO `success` flag, so
not every error response carries one. -/
theorem C7_error_without_success_flag :
    (handlerCJS envOK reqGET [] providerOK).status = 405
    ∧ (handlerCJS envOK reqGET [] providerOK).body.error
        = some (.msg "Method not allowed")
    ∧ (handlerCJS envOK reqGET [] providerOK).body.success = none := by
  refine ⟨by decide, by decide, by decide⟩

/-- C7 (amended): every error outcome of the handler (any non-200
status) carries a JSON body with an `error` description; only the
provider-rejection (and unexpected-failure) responses additionally carry
the `success: false` flag. -/
theorem C7_errors_carry_description (env : Env) (req : Request)
    (users : List UserRecord) (provider : ProviderResponse)
    (h : (handlerCJS env req users provider).status ≠ 200) :
    ((handlerCJS env req users provider).body.error).isSome = true := by
  rcases handlerCJS_outcomes env req users provider with
    h1 | h1 | h1 | h1 | ⟨_, h1⟩ | ⟨_, h1⟩ | ⟨_, h1⟩ <;> rw [h1] at h ⊢
  · rfl
  · rfl
  · rfl
  · rfl
  · cases hp : provider.errors with
    | some es => simp [sendOutcome, hp]
    | none => exact absurd (by simp [sendOutcome, hp]) h
  · exact absurd rfl h
  · cases hp : provider.errors with
    | some es => simp [sendOutcome, hp]
    | none => exact absurd (by simp [sendOutcome, hp]) h

/-- C7 (witness for the amended theorem): the concrete 405 outcome
carries an error description. -/
theorem C7_errors_carry_description_witness :
    ((handlerCJS envOK reqGET [] providerOK).body.error).isSome = true :=
  C7_errors_carry_description envOK reqGET [] providerOK (by decide)

/-- C8: a valid-key POST request missing `title` or `message` is
answered 400 before any audience resolution — the user source is not
queried and no provider call is made. -/
theorem C8_missing_fields_400_before_resolution (env : Env) (req : Request)
    (users : List UserRecord) (provider : ProviderResponse)
    (hmethod : req.method = "POST")
    (hkey : (!optTruthy req.xApiKey || req.xApiKey != env.API_KEY) = false)
    (hcfg : (!optTruthy env.ONESIGNAL_APP_ID
        || !optTruthy env.ONESIGNAL_REST_API_KEY) = false)
    (hbody : (!optTruthy req.body.title || !optTruthy req.body.message) = true) :
    (handlerCJS env req users provider).status = 400
    ∧ (handlerCJS env req users provider).queriedUserSource = false
    ∧ (handlerCJS env req users provider).sent = none := by
  simp [handlerCJS, hmethod, hkey, hcfg, hbody]

/-- C8 (witness): the concrete request missing `title` is answered 400
with no user-source query and no provider call. -/
theorem C8_missing_fields_400_before_resolution_witness :
    (handlerCJS envOK reqNoTitle [⟨some "p1"⟩] providerOK).status = 400
    ∧ (handlerCJS envOK reqNoTitle [⟨some "p1"⟩] providerOK).queriedUserSource = false
    ∧ (handlerCJS envOK reqNoTitle [⟨some "p1"⟩] providerOK).sent = none :=
  C8_missing_fields_400_before_resolution envOK reqNoTitle [⟨some "p1"⟩] providerOK
    rfl (by decide) (by decide) (by decide)

/-- C9: whenever the handler reaches the provider call, a provider
response carrying an `errors` field is mapped to a 500 with
`success: false` and that error payload, and a response without an
`errors` field is mapped to a 200 with `success: true`. -/
theorem C9_provider_errors_mapping (env : Env) (req : Request)
    (users : List UserRecord) (provider : ProviderResponse)
    (h : (handlerCJS env req users provider).sent.isSome = true) :
    match provider.errors with
    | some es =>
        (handlerCJS env req users provider).status = 500
        ∧ (handlerCJS env req users provider).body.success = some false
        ∧ (handlerCJS env req users provider).body.error = some (.errs es)
    | none =>
        (handlerCJS env req users provider).status = 200
        ∧ (handlerCJS env req users provider).body.success = some true := by
  rcases handlerCJS_outcomes env req users provider with
    h1 | h1 | h1 | h1 | ⟨_, h1⟩ | ⟨_, h1⟩ | ⟨_, h1⟩ <;>
      rw [h1] at h ⊢ <;> try simp at h
  · cases hp : provider.errors <;> simp [sendOutcome, hp]
  · cases hp : provider.errors <;> simp [sendOutcome, hp]

/-- C9 (witness): with the provider rejecting
`errors: ["invalid_player_ids"]`, the concrete broadcast request is
answered 500 with `success: false` and that error payload. -/
theorem C9_provider_errors_mapping_witness :
    (handlerCJS envOK reqAll [] providerErr).status = 500
    ∧ (handlerCJS envOK reqAll [] providerErr).body.success = some false
    ∧ (handlerCJS envOK reqAll [] providerErr).body.error
        = some (.errs ["invalid_player_ids"]) :=
  C9_provider_errors_mapping envOK reqAll [] providerErr (by decide)

/-- C10: the CommonJS and ESM handler variants are behaviorally
equivalent — for every environment, request, user source and provider
response they return the same status, make the same outbound call,
query the user source alike, and emit the same body up to the wording
of the "no subscribed users" message. -/
theorem C10_handler_variants_equivalent (env : Env) (req : Request)
    (users : List UserRecord) (provider : ProviderResponse) :
    (handlerCJS env req users provider).status
        = (handlerESM env req users provider).status
    ∧ (handlerCJS env req users provider).sent
        = (handlerESM env req users provider).sent
    ∧ (handlerCJS env req users provider).queriedUserSource
        = (handlerESM env req users provider).queriedUserSource
    ∧ (handlerCJS env req users provider).body.success
        = (handlerESM env req users provider).body.success
    ∧ (handlerCJS env req users provider).body.error
        = (handlerESM env req users provider).body.error
    ∧ (handlerCJS env req users provider).body.data
        = (handlerESM env req users provider).body.data
    ∧ ((handlerCJS env req users provider).body.message
          = (handlerESM env req users provider).body.message
        ∨ ((handlerCJS env req users provider).body.message
              = some "No subscribed users found."
            ∧ (handlerESM env req users provider).body.message
              = some "No subscribed users found to send notification to.")) := by
  rcases handlers_agree env req users provider with h | ⟨h1, h2⟩
  · rw [h]; exact ⟨rfl, rfl, rfl, rfl, rfl, rfl, Or.inl rfl⟩
  · rw [h1, h2]; exact ⟨rfl, rfl, rfl, rfl, rfl, rfl, Or.inr ⟨rfl, rfl⟩⟩

end Send
